import Mathlib

/-!
Shallow embedding of the nvhttpd server core (content cache, request parser,
dispatcher), translated from the C sources, together with theorems settling
the specification claims about them.

Conventions used throughout:
* machine bytes are `Nat` values in `0 .. 255` when stored, and `Int` values
  on the transport (the C functions return an `int` that is either a byte or
  a negative end-of-file / error code);
* `size_t` arithmetic is `Nat` reduced modulo `2 ^ 64` where wraparound can
  occur, `uint16_t` arithmetic is `Nat` reduced modulo `65536`;
* heap allocation outcomes that the C code branches on are explicit boolean
  inputs of the embedded functions.
-/

namespace Nvhttpd

/-! ### Cache path hash (cache.c, function `hash`)

The C source computes, over `size_t` (64 bits, unsigned wraparound):
`hash = ((hash << 5) - hash) + key[i]`, i.e. `hash * 31 + key[i]`.
`key` is a `const char *`; on the gcc / x86-64 target of the repository
`char` is signed, so a byte `b ≥ 128` is sign-extended and contributes
`b - 256` to the unsigned sum. -/

def M64 : Nat := 2 ^ 64

/-- Value contributed by one path byte: bytes below 128 contribute
themselves; bytes 128..255 are sign-extended (`char` is signed), so modulo
`2 ^ 64` they contribute `2 ^ 64 - 256 + b`. -/
def charVal (b : Nat) : Nat := if b < 128 then b else M64 - 256 + b

/-- One iteration of the hash loop of `hash` in cache.c. -/
def hashStep (h : Nat) (b : Nat) : Nat := (31 * h + charVal b) % M64

/-- The path hash of cache.c: `h = 0; for each byte b: h = h * 31 + b` in
64-bit unsigned arithmetic, with `b` read through a signed `char`. -/
def hash (key : List Nat) : Nat := key.foldl hashStep 0

theorem hash_append_byte (s : List Nat) (b : Nat) :
    hash (s ++ [b]) = hashStep (hash s) b := by
  simp [hash, List.foldl_append]

/-! ### Cache table sizing (cache.c, `cache_load` lines 343-362)

`uint16_t capacity = count - 1;` followed by sixteen statements
`capacity |= capacity >> k` for `k = 1 .. 16`, then `mask = capacity;
capacity++;`.  All of this is `uint16_t` arithmetic. -/

def u16 (x : Nat) : Nat := x % 65536

/-- One `capacity |= capacity >> k` statement of `cache_load`. -/
def smearStep (c : Nat) (k : Nat) : Nat := u16 (c ||| (c >>> k))

/-- Value of the local `capacity` variable of `cache_load` after the sixteen
shift-or statements, starting from `count - 1` truncated to `uint16_t`. -/
def capSmear (count : Nat) : Nat :=
  smearStep (smearStep (smearStep (smearStep (smearStep (smearStep (smearStep
  (smearStep (smearStep (smearStep (smearStep (smearStep (smearStep (smearStep
  (smearStep (smearStep (u16 (count - 1))
  1) 2) 3) 4) 5) 6) 7) 8) 9) 10) 11) 12) 13) 14) 15) 16

/-- The `capacity` field stored in the new cache: the smeared value plus
one, still as `uint16_t` (so 65536 wraps to 0). -/
def cacheCapacity (count : Nat) : Nat := u16 (capSmear count + 1)

/-- The `mask` field stored in the new cache: the smeared value itself. -/
def cacheMask (count : Nat) : Nat := capSmear count

theorem u16_eq_of_lt {x : Nat} (h : x < 65536) : u16 x = x := Nat.mod_eq_of_lt h

/-- One smear step preserves the bound `2 ^ (k + 1)` and extends the
interval of set bits downward by `j`. -/
theorem smearStep_spec (c j k a : Nat) (hk : k ≤ 15)
    (hlt : c < 2 ^ (k + 1))
    (hbits : ∀ i, a ≤ i → i ≤ k → c.testBit i = true)
    (hcond : 0 < a → a + j ≤ k + 1) :
    smearStep c j < 2 ^ (k + 1) ∧
    ∀ i, a - j ≤ i → i ≤ k → (smearStep c j).testBit i = true := by
  have hsr : c >>> j < 2 ^ (k + 1) := by
    refine lt_of_le_of_lt ?_ hlt
    rw [Nat.shiftRight_eq_div_pow]
    exact Nat.div_le_self _ _
  have hor : c ||| (c >>> j) < 2 ^ (k + 1) := Nat.or_lt_two_pow hlt hsr
  have hpow : 2 ^ (k + 1) ≤ 65536 := by
    have : 2 ^ (k + 1) ≤ 2 ^ 16 := Nat.pow_le_pow_right (by norm_num) (by omega)
    norm_num at this
    omega
  have hor16 : c ||| (c >>> j) < 65536 := by omega
  constructor
  · rw [smearStep, u16_eq_of_lt hor16]
    exact hor
  · intro i hai hik
    rw [smearStep, u16_eq_of_lt hor16, Nat.testBit_lor]
    by_cases hcase : a ≤ i
    · rw [hbits i hcase hik]
      simp
    · have ha : 0 < a := by omega
      have hc2 := hcond ha
      rw [Nat.testBit_shiftRight, hbits (j + i) (by omega) (by omega)]
      simp

/-- The sixteen smear steps turn any `count - 1` in `1 .. 65534` into the
all-ones pattern below the position above its leading bit. -/
theorem capSmear_eq (n : Nat) (h2 : 2 ≤ n) (h65 : n ≤ 65535) :
    capSmear n = 2 ^ (Nat.log2 (n - 1) + 1) - 1 := by
  have hx0 : n - 1 ≠ 0 := by omega
  have hk15 : Nat.log2 (n - 1) ≤ 15 := by
    have h16 := (Nat.log2_lt hx0).2 (show n - 1 < 2 ^ 16 by norm_num; omega)
    omega
  have hlt : n - 1 < 2 ^ (Nat.log2 (n - 1) + 1) := Nat.lt_log2_self
  have hbitk : (n - 1).testBit (Nat.log2 (n - 1)) = true := by
    have hle : 2 ^ Nat.log2 (n - 1) ≤ n - 1 := Nat.log2_self_le hx0
    have hlt2 : n - 1 < 2 ^ Nat.log2 (n - 1) * 2 := by
      have h := Nat.lt_log2_self (n := n - 1)
      rwa [Nat.pow_succ] at h
    have hdiv : (n - 1) / 2 ^ Nat.log2 (n - 1) = 1 := by
      have hpos : 0 < 2 ^ Nat.log2 (n - 1) := Nat.two_pow_pos _
      have hge : 1 ≤ (n - 1) / 2 ^ Nat.log2 (n - 1) := (Nat.one_le_div_iff hpos).2 hle
      have hlt3 : (n - 1) / 2 ^ Nat.log2 (n - 1) < 2 := Nat.div_lt_of_lt_mul hlt2
      omega
    rw [Nat.testBit_to_div_mod, hdiv]
    rfl
  have hu : u16 (n - 1) = n - 1 := u16_eq_of_lt (by omega)
  have s1 := smearStep_spec (n - 1) 1 (Nat.log2 (n - 1)) (Nat.log2 (n - 1)) hk15 hlt
    (fun i hai hik => by
      have hi : i = Nat.log2 (n - 1) := by omega
      rw [hi]; exact hbitk)
    (by omega)
  have s2 := smearStep_spec _ 2 _ _ hk15 s1.1 s1.2 (by omega)
  have s3 := smearStep_spec _ 3 _ _ hk15 s2.1 s2.2 (by omega)
  have s4 := smearStep_spec _ 4 _ _ hk15 s3.1 s3.2 (by omega)
  have s5 := smearStep_spec _ 5 _ _ hk15 s4.1 s4.2 (by omega)
  have s6 := smearStep_spec _ 6 _ _ hk15 s5.1 s5.2 (by omega)
  have s7 := smearStep_spec _ 7 _ _ hk15 s6.1 s6.2 (by omega)
  have s8 := smearStep_spec _ 8 _ _ hk15 s7.1 s7.2 (by omega)
  have s9 := smearStep_spec _ 9 _ _ hk15 s8.1 s8.2 (by omega)
  have s10 := smearStep_spec _ 10 _ _ hk15 s9.1 s9.2 (by omega)
  have s11 := smearStep_spec _ 11 _ _ hk15 s10.1 s10.2 (by omega)
  have s12 := smearStep_spec _ 12 _ _ hk15 s11.1 s11.2 (by omega)
  have s13 := smearStep_spec _ 13 _ _ hk15 s12.1 s12.2 (by omega)
  have s14 := smearStep_spec _ 14 _ _ hk15 s13.1 s13.2 (by omega)
  have s15 := smearStep_spec _ 15 _ _ hk15 s14.1 s14.2 (by omega)
  have s16 := smearStep_spec _ 16 _ _ hk15 s15.1 s15.2 (by omega)
  unfold capSmear
  rw [hu]
  apply Nat.eq_of_testBit_eq
  intro i
  rw [Nat.testBit_two_pow_sub_one]
  by_cases hik : i < Nat.log2 (n - 1) + 1
  · rw [s16.2 i (by omega) (by omega)]
    simp [hik]
  · have hbig : 2 ^ (Nat.log2 (n - 1) + 1) ≤ 2 ^ i :=
      Nat.pow_le_pow_right (by norm_num) (by omega)
    rw [Nat.testBit_lt_two_pow (by omega)]
    simp [hik]

/-- C2 counterexample: for a successful load over 2 files the stored
capacity is 2, which is not strictly greater than the entry count, refuting
the claim that capacity is always the smallest power of two strictly
greater than `count`. -/
theorem c2_counterexample : cacheCapacity 2 = 2 ∧ ¬ (2 < cacheCapacity 2) := by
  decide

/-- C2 amended: for `1 ≤ count ≤ 32768` the stored capacity is a power of
two with `count ≤ capacity < 2 * count` -- that is, the smallest power of
two greater than or EQUAL to `count`, so `capacity = count` when `count` is
itself a power of two -- and `mask = capacity - 1`; for
`32768 < count ≤ 65534` the `uint16_t` increment overflows and the stored
capacity is 0 with `mask = 65535`. -/
theorem c2_capacity_amended : ∀ n : Nat, 1 ≤ n → n ≤ 65534 →
    (n ≤ 32768 →
      (∃ k, cacheCapacity n = 2 ^ k) ∧
      n ≤ cacheCapacity n ∧ cacheCapacity n < 2 * n ∧
      cacheMask n = cacheCapacity n - 1) ∧
    (32768 < n → cacheCapacity n = 0 ∧ cacheMask n = 65535) := by
  intro n h1 h65
  by_cases hn1 : n = 1
  · subst hn1
    exact ⟨fun _ => ⟨⟨0, by decide⟩, by decide, by decide, by decide⟩, by omega⟩
  · have h2 : 2 ≤ n := by omega
    have hsm := capSmear_eq n h2 (by omega)
    have hx0 : n - 1 ≠ 0 := by omega
    constructor
    · intro h32
      have hL : Nat.log2 (n - 1) ≤ 14 := by
        have h15 := (Nat.log2_lt hx0).2 (show n - 1 < 2 ^ 15 by norm_num; omega)
        omega
      have hple : 2 ^ (Nat.log2 (n - 1) + 1) ≤ 2 ^ 15 :=
        Nat.pow_le_pow_right (by norm_num) (by omega)
      have hcapv : cacheCapacity n = 2 ^ (Nat.log2 (n - 1) + 1) := by
        rw [cacheCapacity, hsm,
          Nat.sub_add_cancel (Nat.one_le_two_pow)]
        exact u16_eq_of_lt (by norm_num at hple; omega)
      refine ⟨⟨_, hcapv⟩, ?_, ?_, ?_⟩
      · rw [hcapv]
        have hlt := Nat.lt_log2_self (n := n - 1)
        omega
      · rw [hcapv, Nat.pow_succ]
        have hle := Nat.log2_self_le hx0
        omega
      · rw [cacheMask, hsm, hcapv]
    · intro h32
      have hL : Nat.log2 (n - 1) = 15 := by
        have hup := (Nat.log2_lt hx0).2 (show n - 1 < 2 ^ 16 by norm_num; omega)
        have hlo := (Nat.le_log2 hx0).2 (show 2 ^ 15 ≤ n - 1 by norm_num; omega)
        omega
      refine ⟨?_, ?_⟩
      · rw [cacheCapacity, hsm, hL]
        norm_num [u16]
      · rw [cacheMask, hsm, hL]
        norm_num

/-- C2 witness: the amended capacity theorem evaluated at a 3-entry load. -/
theorem c2_capacity_witness :
    (3 ≤ 32768 →
      (∃ k, cacheCapacity 3 = 2 ^ k) ∧
      3 ≤ cacheCapacity 3 ∧ cacheCapacity 3 < 2 * 3 ∧
      cacheMask 3 = cacheCapacity 3 - 1) ∧
    (32768 < 3 → cacheCapacity 3 = 0 ∧ cacheMask 3 = 65535) :=
  c2_capacity_amended 3 (by decide) (by decide)

/-- C6 counterexample: for the one-byte string with byte value 128 the hash
is `2 ^ 64 - 128`, not `128` as the claimed recurrence
`hash(s ++ [c]) = hash(s) * 31 + c (mod 2 ^ 64)` would require, because the
byte is read through a signed `char`. -/
theorem c6_counterexample :
    hash [128] ≠ (hash [] * 31 + 128) % M64 := by
  decide

/-- C6 amended: `hash("") = 0`; appending a byte `b ≤ 127` multiplies by 31
and adds `b` modulo `2 ^ 64`; appending a byte `128 ≤ b ≤ 255` adds the
sign-extended value, i.e. `2 ^ 64 - 256 + b`, instead of `b`. -/
theorem c6_hash_amended (s : List Nat) (b : Nat) :
    hash [] = 0 ∧
    (b ≤ 127 → hash (s ++ [b]) = (hash s * 31 + b) % M64) ∧
    (128 ≤ b → b ≤ 255 → hash (s ++ [b]) = (hash s * 31 + (M64 - 256 + b)) % M64) := by
  refine ⟨rfl, ?_, ?_⟩
  · intro hb
    rw [hash_append_byte, hashStep, charVal, if_pos (by omega), Nat.mul_comm]
  · intro hb _
    rw [hash_append_byte, hashStep, charVal, if_neg (by omega), Nat.mul_comm]

/-- C6 witness: the amended hash recurrence evaluated at the byte 97
appended to the path "/a" (bytes 47, 97). -/
theorem c6_hash_witness :
    hash ([47, 97] ++ [97]) = (hash [47, 97] * 31 + 97) % M64 :=
  (c6_hash_amended [47, 97] 97).2.1 (by decide)

/-! ### Cache snapshots and `cache_load` (cache.c, second draft)

A `cache_element` holds one file of the content tree (the `next` pointer of
the C struct is represented by the enclosing list).  The filesystem walk
(`load_dir`) and the two allocations of `cache_load` interact with the
outside world; their outcomes are explicit inputs of the embedded
`cache_load`.  The published snapshot pointer (the C global `cache`) is
threaded as an explicit `Option snapshot` value. -/

structure cache_element where
  hash : Nat
  len : Nat
  path : List Nat
  mime : String
  data : List Nat
deriving DecidableEq

structure snapshot where
  capacity : Nat
  mask : Nat
  count : Nat
  data : List (Option cache_element)
deriving DecidableEq

/-- The probing loop of the insertion block of `cache_load` (lines 369-401):
starting slot `hash &&& mask`, advance `(index + 1) &&& mask` past occupied
slots, place the element in the first empty slot, skip it on a duplicate
path.  The C loop has no termination guard; the fuel covers it because an
empty slot always exists while fewer than `capacity` elements are stored. -/
def probe_insert : Nat → List (Option cache_element) → Nat → Nat → cache_element →
    List (Option cache_element)
  | 0, table, _, _, _ => table
  | fuel + 1, table, mask, index, e =>
    match table.getD index none with
    | none => table.set index (some e)
    | some e2 =>
      if e2.path = e.path then table
      else probe_insert fuel table mask ((index + 1) &&& mask) e

/-- The table built by `cache_load` from the walked file list. -/
def build_table (files : List cache_element) (capacity mask : Nat) :
    List (Option cache_element) :=
  files.foldl (fun t e => probe_insert (capacity + 1) t mask (e.hash &&& mask) e)
    (List.replicate capacity none)

/-- Outcome of the recursive walk `load_dir`: any opendir/stat/open/read or
allocation failure inside the walk makes it return nonzero; on success it
yields the collected file list (`file_list`, most recently found first). -/
inductive walk_result where
  | failure : walk_result
  | success : List cache_element → walk_result
deriving DecidableEq

structure load_input where
  new_alloc_ok : Bool
  data_alloc_ok : Bool
  walk : walk_result
deriving DecidableEq

/-- `cache_load` of cache.c (second draft): returns the C result code and
the published snapshot pointer after the call.  The pointer is swapped
(under the writer lock) only on the all-success path; every `goto term`
path leaves it untouched and returns 1. -/
def cache_load (inp : load_input) (published : Option snapshot) :
    Int × Option snapshot :=
  if inp.new_alloc_ok = false then (1, published)
  else
    match inp.walk with
    | walk_result.failure => (1, published)
    | walk_result.success files =>
      if 65534 < files.length then (1, published)
      else if files.length = 0 then (1, published)
      else if inp.data_alloc_ok = false then (1, published)
      else
        let cap := cacheCapacity files.length
        let mask := cacheMask files.length
        (0, some ⟨cap, mask, files.length, build_table files cap mask⟩)

/-- C7: a failed walk or a walk of more than 65534 files makes `cache_load`
return 1 with the published snapshot unchanged, and in general the
published snapshot changes only when `cache_load` returns 0. -/
theorem c7_failure_preserves_snapshot (inp : load_input) (pub : Option snapshot) :
    ((inp.walk = walk_result.failure ∨
      (∃ files, inp.walk = walk_result.success files ∧ 65534 < files.length)) →
      cache_load inp pub = (1, pub)) ∧
    ((cache_load inp pub).1 ≠ 0 → (cache_load inp pub).2 = pub) := by
  obtain ⟨na, da, w⟩ := inp
  refine ⟨?_, ?_⟩
  · rintro (hw | ⟨files, hw, hlen⟩)
    · cases hw
      cases na <;> simp [cache_load]
    · cases hw
      cases na <;> simp [cache_load, hlen]
  · intro hrc
    cases w with
    | failure => cases na <;> simp [cache_load]
    | success files =>
      cases na with
      | false => simp [cache_load]
      | true =>
        simp only [cache_load] at hrc ⊢
        split_ifs at hrc ⊢ <;> simp_all

/-- C7 witness: a failed walk over a previously empty published pointer. -/
theorem c7_witness :
    cache_load ⟨true, true, walk_result.failure⟩ none = (1, none) :=
  (c7_failure_preserves_snapshot ⟨true, true, walk_result.failure⟩ none).1 (Or.inl rfl)

/-- C10: a walk that completes with zero files makes `cache_load` return 1
and leaves the published snapshot unchanged: an empty tree is never
published. -/
theorem c10_empty_walk_not_published (inp : load_input) (pub : Option snapshot)
    (h : inp.walk = walk_result.success []) :
    cache_load inp pub = (1, pub) := by
  obtain ⟨na, da, w⟩ := inp
  cases h
  cases na <;> simp [cache_load]

/-- C10 witness: an empty successful walk over an empty published pointer. -/
theorem c10_witness :
    cache_load ⟨true, true, walk_result.success []⟩ none = (1, none) :=
  c10_empty_walk_not_published ⟨true, true, walk_result.success []⟩ none rfl

/-! ### Accept loop and reload (http.c first draft `http_accept`,
main.c second draft `handle_connections`)

One `accept_event` carries the outside-world outcomes of one loop
iteration: the file descriptor returned by `accept`, the outcome of
`cache_load` if a reload is pending, the outcome of the TLS handshake, and
whether SIGINT was delivered during the iteration (observed at the next
loop condition).  Allocation of the client struct is assumed to succeed. -/

structure accept_event where
  fd : Int
  load_ok : Bool
  ssl_ok : Bool
  intr : Bool
deriving DecidableEq

/-- `http_accept`: `accept()` runs first; then, if the reload flag is set,
`cache_load` is invoked -- on failure NULL is returned with the flag still
set, on success the flag is cleared; then the fd test and the optional TLS
handshake.  Returns (client obtained?, reload flag afterwards). -/
def http_accept (ssl_enabled reload : Bool) (ev : accept_event) : Bool × Bool :=
  if reload && ev.load_ok = false then (false, reload)
  else if ev.fd < 0 then (false, false)
  else if ssl_enabled && ev.ssl_ok = false then (false, false)
  else (true, false)

/-- `handle_connections`: `while (!terminate)` call `http_accept`; spawn a
detached worker only when a client was obtained; on exit return 0.  The
result is (exit code if the loop exited -- `none` while it is still
running, having consumed all supplied events --, number of `http_accept`
calls, number of workers spawned). -/
def handle_connections (ssl_enabled : Bool) :
    List accept_event → Bool → Bool → Option Int × Nat × Nat
  | _, true, _ => (some 0, 0, 0)
  | [], false, _ => (none, 0, 0)
  | ev :: evs, false, reload =>
    let r := http_accept ssl_enabled reload ev
    let rest := handle_connections ssl_enabled evs ev.intr r.2
    (rest.1, rest.2.1 + 1, rest.2.2 + (if r.1 then 1 else 0))

/-- C9 counterexample: with the reload flag set and `cache_load` failing,
the loop runs on: over two iterations `accept` is invoked twice (a second
connection IS accepted after the failed reload) and the loop has not
terminated with an error. -/
theorem c9_counterexample :
    handle_connections false
      [⟨3, false, true, false⟩, ⟨4, false, true, false⟩] false true =
      (none, 2, 0) := by
  rfl

/-- C9 amended: a failed reload makes `http_accept` return NULL for that
iteration (the just-accepted connection is dropped unserviced) and leaves
the reload flag set, and `handle_connections` simply continues with the
next iteration -- it performs one more `accept` call and spawns nothing,
and its exit behaviour is that of the remaining iterations; the loop never
aborts because of a failed reload. -/
theorem c9_reload_failure_continues (ssl : Bool) (ev : accept_event)
    (evs : List accept_event) (hload : ev.load_ok = false) (hintr : ev.intr = false) :
    http_accept ssl true ev = (false, true) ∧
    handle_connections ssl (ev :: evs) false true =
      ((handle_connections ssl evs false true).1,
       (handle_connections ssl evs false true).2.1 + 1,
       (handle_connections ssl evs false true).2.2) := by
  have h1 : http_accept ssl true ev = (false, true) := by
    simp [http_accept, hload]
  refine ⟨h1, ?_⟩
  simp [handle_connections, h1, hintr]

/-- C9 witness: the amended reload behaviour at a concrete event. -/
theorem c9_reload_witness :
    http_accept false true ⟨3, false, true, false⟩ = (false, true) ∧
    handle_connections false [⟨3, false, true, false⟩] false true =
      ((handle_connections false [] false true).1,
       (handle_connections false [] false true).2.1 + 1,
       (handle_connections false [] false true).2.2) :=
  c9_reload_failure_continues false ⟨3, false, true, false⟩ [] rfl rfl

/-! ### The connection worker (main.c second draft, `handle_client_request`)

The worker receives the parse outcome, selects a status code and a lookup
path, consults the cache, falls back to the 404 page and then to a
synthesized plain-text entry, and sends header plus body in one buffer.
`Content-Length` in the emitted header is the `data_len` argument passed to
`http_response_header`, and `data_len` bytes of body follow the header. -/

def bytes (s : String) : List Nat := s.data.map (fun c => c.toNat)

/-- The `response_code_str` array of response.c, indexed by
`http_response_code_e` (200, 400, 404, 500, 501). -/
def response_code_str (code : Nat) : String :=
  match code with
  | 0 => "200 OK"
  | 1 => "400 Bad Request"
  | 2 => "404 Not Found"
  | 3 => "500 Internal Server Error"
  | 4 => "501 Not Implemented"
  | _ => ""

inductive worker_result where
  /-- connection closed without any response bytes -/
  | drop : worker_result
  /-- status index, status line of the emitted header, the value of the
  Content-Length header, and the number of body bytes sent -/
  | sent : Nat → String → Nat → Nat → worker_result
deriving DecidableEq

/-- `handle_client_request` after parsing: `find` is `cache_find` on the
published snapshot; `parse_error` is the `request_parse` result; `method`
and `uri` come from the parsed request (method 2 = GET, 3 = HEAD). -/
def handle_client_request (find : List Nat → Option cache_element)
    (parse_error : Int) (method : Nat) (uri : List Nat) : worker_result :=
  if parse_error = 1 then worker_result.drop
  else
    let cp : Nat × List Nat :=
      if parse_error = 0 then (0, uri)
      else if parse_error = 400 then (1, bytes "/error/400/index.html")
      else if parse_error = 501 then (4, bytes "/error/501/index.html")
      else (3, bytes "/error/500/index.html")
    let ce : Nat × Option cache_element :=
      match find cp.2 with
      | some e => (cp.1, some e)
      | none =>
        if cp.1 = 0 then (2, find (bytes "/error/404/index.html"))
        else (cp.1, none)
    let elen : Nat :=
      match ce.2 with
      | some e => e.len
      | none => (response_code_str ce.1).length
    let data_len : Nat := if method = 2 then elen else 0
    worker_result.sent ce.1 ("HTTP/1.1 " ++ response_code_str ce.1) data_len data_len

def c4_entry : cache_element :=
  ⟨hash (bytes "/x"), 13, bytes "/x", "text/html; charset=UTF-8",
    List.replicate 13 97⟩

def c4_find : List Nat → Option cache_element :=
  fun p => if p = bytes "/x" then some c4_entry else none

/-- C4 counterexample: a HEAD request resolving to a 13-byte cache entry is
answered with `Content-Length: 0` (and zero body bytes), not with
`Content-Length: 13` as the claim states. -/
theorem c4_counterexample :
    handle_client_request c4_find 0 3 (bytes "/x") =
      worker_result.sent 0 "HTTP/1.1 200 OK" 0 0 ∧
    c4_entry.len = 13 ∧ (0 : Nat) ≠ 13 := by
  refine ⟨by decide, by decide, by decide⟩

/-- C4 amended: for every parse-OK HEAD request that resolves to a cache
hit, the worker sends zero body bytes and the Content-Length header is
also 0 (`data_len` is 0 for any method other than GET and is passed to
`http_response_header` as the Content-Length value). -/
theorem c4_head_amended (find : List Nat → Option cache_element)
    (uri : List Nat) (e : cache_element) (hfind : find uri = some e) :
    handle_client_request find 0 3 uri =
      worker_result.sent 0 "HTTP/1.1 200 OK" 0 0 := by
  unfold handle_client_request
  norm_num
  rw [hfind]
  exact ⟨rfl, rfl⟩

/-- C4 witness: the amended HEAD behaviour at the concrete 13-byte entry. -/
theorem c4_head_witness :
    handle_client_request c4_find 0 3 (bytes "/x") =
      worker_result.sent 0 "HTTP/1.1 200 OK" 0 0 :=
  c4_head_amended c4_find (bytes "/x") c4_entry (by rfl)

/-! ### The request parser (request.c)

The transport is a pure byte stream (`List Int`, every element in
`0 .. 255`).  `io_next` and `io_peek` return the next byte or `-1`
(`IO_EOF`) when the stream is exhausted; the `recv` failure code `IO_ERROR`
(`-2`) cannot arise in the pure model.  Every `< IO_OK` test of the C code
therefore becomes a `< 0` test here, and each parser routine returns the
same `request_parse_error_e` codes as the source: `0` OK, `1` IO_ERROR,
`2` ERROR, `400` BAD, `501` NOT_IMPLEMENTED.  Loops take an explicit fuel
argument; the top-level callers pass one more than the stream length,
which exceeds the number of iterations since every continuing iteration
consumes at least one byte.  Reallocation of the growing buffers is
assumed to succeed (its failure path returns 2 like the length cap). -/

def ibytes (s : String) : List Int := s.data.map (fun c => (c.toNat : Int))

def io_next : List Int → Int × List Int
  | [] => (-1, [])
  | b :: r => (b, r)

def io_peek : List Int → Int
  | [] => -1
  | b :: _ => b

/-- C `isspace` on the request byte values: space, tab, LF, VT, FF, CR. -/
def isspace (c : Int) : Bool := c = 32 || (9 ≤ c && c ≤ 13)

def isdigit (c : Int) : Bool := 48 ≤ c && c ≤ 57

def isxdigit (c : Int) : Bool :=
  isdigit c || (65 ≤ c && c ≤ 70) || (97 ≤ c && c ≤ 102)

/-- `skip_ws`: peek and consume whitespace, but stop at (and do not
consume) a line feed; returns the byte the loop stopped at. -/
def skip_ws : List Int → Int × List Int
  | [] => (-1, [])
  | c :: r =>
    if !(isspace c) || c = 10 then (c, c :: r)
    else skip_ws r

/-- The repeated pattern of the method and version matchers: `io_next` one
byte per expected character, `IO_ERROR` (1) on end of stream, `BAD` (400)
on a mismatch. -/
def expect_chars : List Int → List Int → Int × List Int
  | [], s => (0, s)
  | e :: es, s =>
    let n := io_next s
    if n.1 < 0 then (1, n.2)
    else if n.1 ≠ e then (400, n.2)
    else expect_chars es n.2

/-- Common tail of the non-`P` cases of the `get_method` switch: match the
remaining letters, then require whitespace via `io_peek`. -/
def method_tail (expected : List Int) (m : Nat) (s : List Int) :
    Int × Nat × List Int :=
  let r := expect_chars expected s
  if r.1 ≠ 0 then (r.1, 0, r.2)
  else
    let ch := io_peek r.2
    if ch < 0 then (1, m, r.2)
    else if !(isspace ch) then (400, m, r.2)
    else (0, m, r.2)

/-- `get_method` of request.c.  Methods are numbered as in
`request_method_e`: CONNECT 0, DELETE 1, GET 2, HEAD 3, OPTIONS 4, POST 5,
PUT 6, TRACE 7.  The `case 'P'` branch of the source sets the method but
then falls into an unconditional `return REQUEST_PARSE_IO_ERROR` (there is
no `break` and no whitespace check), so a fully matched POST or PUT still
yields 1. -/
def get_method (s : List Int) : Int × Nat × List Int :=
  let n := io_next s
  if n.1 < 0 then (1, 0, n.2)
  else if n.1 = 67 then method_tail (ibytes "ONNECT") 0 n.2
  else if n.1 = 68 then method_tail (ibytes "ELETE") 1 n.2
  else if n.1 = 71 then method_tail (ibytes "ET") 2 n.2
  else if n.1 = 72 then method_tail (ibytes "EAD") 3 n.2
  else if n.1 = 79 then method_tail (ibytes "PTIONS") 4 n.2
  else if n.1 = 80 then
    let n2 := io_next n.2
    if n2.1 < 0 then (1, 0, n2.2)
    else if n2.1 = 79 then
      let r := expect_chars (ibytes "ST") n2.2
      if r.1 ≠ 0 then (r.1, 0, r.2) else (1, 5, r.2)
    else if n2.1 = 85 then
      let r := expect_chars (ibytes "T") n2.2
      if r.1 ≠ 0 then (r.1, 0, r.2) else (1, 6, r.2)
    else (1, 0, n2.2)
  else if n.1 = 84 then method_tail (ibytes "RACE") 7 n.2
  else (400, 0, n.2)

/-- The accumulation loop of `get_uri`.  `acc` holds the stored bytes in
reverse, `len` mirrors `uri_len` and `size` mirrors the doubling
`uri_size` (512, then 1024); the length-cap test precedes the terminator
test, so it fires as soon as `uri_len` reaches `URI_SIZE_MAX` (1024).  On
a `%` escape the source consumes the percent and the first hex digit,
peeks the second, and stores `ch += digit << 4` where `digit` is the ASCII
value of the FIRST digit; the `char` store truncates that sum modulo
256. -/
def get_uri_loop : Nat → List Int → List Nat → Nat → Nat →
    Int × List Nat × List Int
  | 0, s, _, _, _ => (1, [], s)
  | fuel + 1, s, acc, len, size =>
    let ch := io_peek s
    if ch < 0 then (1, [], s)
    else
      match (if len < size then some size
             else if 1024 ≤ size then none
             else some (size * 2)) with
      | none => (2, [], s)
      | some size2 =>
        if isspace ch || ch = 63 || ch = 35 then (0, acc.reverse, s)
        else if ch = 37 then
          let n1 := io_next s
          if n1.1 < 0 then (1, [], n1.2)
          else
            let n2 := io_next n1.2
            if n2.1 < 0 then (1, [], n2.2)
            else if !(isxdigit n2.1) then (400, [], n2.2)
            else
              let h2 := io_peek n2.2
              if h2 < 0 then (1, [], n2.2)
              else if !(isxdigit h2) then (400, [], n2.2)
              else
                let b := ((h2 + n2.1 * 16) % 256).toNat
                let n3 := io_next n2.2
                if n3.1 < 0 then (1, [], n3.2)
                else get_uri_loop fuel n3.2 (b :: acc) (len + 1) size2
        else
          let n3 := io_next s
          if n3.1 < 0 then (1, [], n3.2)
          else get_uri_loop fuel n3.2 (ch.toNat :: acc) (len + 1) size2

/-- `get_uri`: run the loop, then rewrite a trailing slash by appending
`index.html`.  (For an empty URI the source reads `uri[-1]`, which is
undefined; the model appends nothing in that case.) -/
def get_uri (s : List Int) : Int × List Nat × List Int :=
  let r := get_uri_loop (s.length + 1) s [] 0 512
  if r.1 ≠ 0 then r
  else
    let u := r.2.1
    let u2 := if u.getLast? = some 47 then u ++ bytes "index.html" else u
    (0, u2, r.2.2)

/-- The accumulation loop of `get_uri_fragment`: identical to the URI loop
except that only whitespace terminates. -/
def get_uri_fragment_loop : Nat → List Int → List Nat → Nat → Nat →
    Int × List Nat × List Int
  | 0, s, _, _, _ => (1, [], s)
  | fuel + 1, s, acc, len, size =>
    let ch := io_peek s
    if ch < 0 then (1, [], s)
    else
      match (if len < size then some size
             else if 1024 ≤ size then none
             else some (size * 2)) with
      | none => (2, [], s)
      | some size2 =>
        if isspace ch then (0, acc.reverse, s)
        else if ch = 37 then
          let n1 := io_next s
          if n1.1 < 0 then (1, [], n1.2)
          else
            let n2 := io_next n1.2
            if n2.1 < 0 then (1, [], n2.2)
            else if !(isxdigit n2.1) then (400, [], n2.2)
            else
              let h2 := io_peek n2.2
              if h2 < 0 then (1, [], n2.2)
              else if !(isxdigit h2) then (400, [], n2.2)
              else
                let b := ((h2 + n2.1 * 16) % 256).toNat
                let n3 := io_next n2.2
                if n3.1 < 0 then (1, [], n3.2)
                else get_uri_fragment_loop fuel n3.2 (b :: acc) (len + 1) size2
        else
          let n3 := io_next s
          if n3.1 < 0 then (1, [], n3.2)
          else get_uri_fragment_loop fuel n3.2 (ch.toNat :: acc) (len + 1) size2

def get_uri_fragment (s : List Int) : Int × List Nat × List Int :=
  get_uri_fragment_loop (s.length + 1) s [] 0 512

/-- The accumulation loop of `parse_var` (name up to the separator).  With
separator `=` any whitespace is BAD; the buffer starts at 512 which
already exceeds the 128 cap, so the cap fires at length 512. -/
def parse_var_loop : Nat → List Int → Int → List Nat → Nat → Nat →
    Int × List Nat × List Int
  | 0, s, _, _, _, _ => (1, [], s)
  | fuel + 1, s, sep, acc, len, size =>
    let ch := io_peek s
    if ch < 0 then (1, [], s)
    else if isspace ch && sep = 61 then (400, [], s)
    else
      match (if len < size then some size
             else if 128 ≤ size then none
             else some (size * 2)) with
      | none => (2, [], s)
      | some size2 =>
        if ch = sep then (0, acc.reverse, s)
        else
          let n := io_next s
          if n.1 < 0 then (1, [], n.2)
          else parse_var_loop fuel n.2 sep (ch.toNat :: acc) (len + 1) size2

def parse_var (s : List Int) (sep : Int) : Int × List Nat × List Int :=
  parse_var_loop (s.length + 1) s sep [] 0 512

/-- The accumulation loop of `parse_val` (value up to `&` or CR). -/
def parse_val_loop : Nat → List Int → List Nat → Nat → Nat →
    Int × List Nat × List Int
  | 0, s, _, _, _ => (1, [], s)
  | fuel + 1, s, acc, len, size =>
    let ch := io_peek s
    if ch < 0 then (1, [], s)
    else
      match (if len < size then some size
             else if 1024 ≤ size then none
             else some (size * 2)) with
      | none => (2, [], s)
      | some size2 =>
        if ch = 38 || ch = 13 then (0, acc.reverse, s)
        else
          let n := io_next s
          if n.1 < 0 then (1, [], n.2)
          else parse_val_loop fuel n.2 (ch.toNat :: acc) (len + 1) size2

def parse_val (s : List Int) : Int × List Nat × List Int :=
  parse_val_loop (s.length + 1) s [] 0 512

/-- The variable loop of `get_query`; `add_variable` prepends, so the pairs
accumulate most recent first. -/
def get_query_loop : Nat → List Int → List (List Nat × List Nat) →
    Int × List (List Nat × List Nat) × List Int
  | 0, s, vars => (1, vars, s)
  | fuel + 1, s, vars =>
    let ch := io_peek s
    if ch < 0 then (1, vars, s)
    else if isspace ch || ch = 35 then (0, vars, s)
    else
      let rv := parse_var s 61
      if rv.1 ≠ 0 then (rv.1, vars, rv.2.2)
      else
        let n := io_next rv.2.2
        if n.1 < 0 then (1, vars, n.2)
        else if n.1 ≠ 61 then (400, vars, n.2)
        else
          let rl := parse_val n.2
          if rl.1 ≠ 0 then (rl.1, vars, rl.2.2)
          else
            let vars2 := (rv.2.1, rl.2.1) :: vars
            let ch2 := io_peek rl.2.2
            if ch2 < 0 then (1, vars2, rl.2.2)
            else if ch2 = 38 then
              let n2 := io_next rl.2.2
              if n2.1 < 0 then (1, vars2, n2.2)
              else get_query_loop fuel n2.2 vars2
            else get_query_loop fuel rl.2.2 vars2

/-- `get_query`: the source only compares the first `io_next` result with
`IO_ERROR` (-2), which the pure stream model never produces; end of stream
therefore falls through to the not-a-question-mark test and returns OK. -/
def get_query (s : List Int) : Int × List (List Nat × List Nat) × List Int :=
  let n := io_next s
  if n.1 ≠ 63 then (0, [], n.2)
  else get_query_loop (n.2.length + 1) n.2 []

/-- The version-number loop of `get_http_ver` (at most 15 characters).
`buf` collects the stored characters, `minor` records the buffer index
just after the first dot.  The source sets `ch = 0` at the dot but
immediately overwrites `ch` with the consumed character, so the dot itself
is stored; `strtol` stops at it anyway. -/
def ver_loop : Nat → List Int → List Nat → Option Nat →
    Int × List Nat × Option Nat × List Int
  | 0, s, buf, minor => (0, buf, minor, s)
  | i + 1, s, buf, minor =>
    let ch := io_peek s
    if ch < 0 then (1, buf, minor, s)
    else if isspace ch then (0, buf, minor, s)
    else if !(isdigit ch) && ch ≠ 46 then (400, buf, minor, s)
    else if ch = 46 && minor.isSome then (400, buf, minor, s)
    else
      let minor2 := if ch = 46 then some (buf.length + 1) else minor
      let n := io_next s
      if n.1 < 0 then (1, buf, minor2, n.2)
      else ver_loop i n.2 (buf ++ [n.1.toNat]) minor2

/-- `strtol(buffer, NULL, 10)` on the version buffer: the buffer can only
hold decimal digits and dots, for which strtol is the value of the leading
digit run. -/
def strtol_digits (cs : List Nat) : Int :=
  (cs.takeWhile (fun c => decide (48 ≤ c) && decide (c ≤ 57))).foldl
    (fun a c => a * 10 + ((c : Int) - 48)) 0

/-- `get_http_ver`: match `HTTP/` character by character, then run the
version loop and convert.  When the version contains no dot the source
passes NULL to `strtol` (undefined behaviour); the model returns 0 for the
minor in that unreachable-by-our-claims corner. -/
def get_http_ver (s : List Int) : Int × Int × Int × List Int :=
  let r := expect_chars (ibytes "HTTP/") s
  if r.1 ≠ 0 then (r.1, 0, 0, r.2)
  else
    let v := ver_loop 15 r.2 [] none
    if v.1 ≠ 0 then (v.1, 0, 0, v.2.2.2)
    else
      let major := strtol_digits v.2.1
      let minorv :=
        match v.2.2.1 with
        | some i => strtol_digits (v.2.1.drop i)
        | none => 0
      (0, major, minorv, v.2.2.2)

/-- The parsed request (request.h `request_s`): `rtype` 0 is SIMPLE and 1
is FULL, methods are numbered as in `get_method`. -/
structure request where
  method : Nat
  rtype : Nat
  uri : List Nat
  uri_fragment : List Nat
  url_variables : List (List Nat × List Nat)
  headers : List (List Nat × List Nat)
  http_version_major : Int
  http_version_minor : Int
deriving DecidableEq

/-- The zeroed request produced by `request_get` (`memset 0`). -/
def request0 : request := ⟨0, 0, [], [], [], [], 0, 0⟩

/-- The version step of `request_parse` for FULL requests. -/
def parse_ver_step (req : request) (s : List Int) : Int × request × List Int :=
  let v := get_http_ver s
  if v.1 ≠ 0 then (v.1, req, v.2.2.2)
  else (0, { req with http_version_major := v.2.1,
                      http_version_minor := v.2.2.1 }, v.2.2.2)

/-- `request_parse` from `request->type = REQUEST_TYPE_FULL` onward: decide
SIMPLE versus FULL, enforce GET for SIMPLE, parse the version for FULL,
and return OK.  The code after this point in the source (the CRLF checks
and `get_headers`) is unreachable: `request_parse` returns
`REQUEST_PARSE_OK` unconditionally first (the `// Ignoring headers` early
return at request.c line 211). -/
def parse_tail (req : request) (ch : Int) (s : List Int) : Int × request × List Int :=
  let req1 : request := { req with rtype := 1 }
  if isspace ch then
    let w := skip_ws s
    if w.1 < 0 then (1, req1, w.2)
    else if w.1 = 10 then
      let req2 : request := { req1 with rtype := 0 }
      if req2.method ≠ 2 then (400, req2, w.2)
      else (0, { req2 with http_version_major := 0, http_version_minor := 9 }, w.2)
    else parse_ver_step req1 w.2
  else parse_ver_step req1 s

/-- The optional-fragment step of `request_parse`.  After a successful
fragment the C variable `ch` holds the OK return value 0 of
`get_uri_fragment`, which is not a space, so the tail takes its non-space
branch. -/
def parse_after_query (req : request) (ch : Int) (s : List Int) :
    Int × request × List Int :=
  if ch = 35 then
    let n := io_next s
    if n.1 < 0 then (1, req, n.2)
    else
      let f := get_uri_fragment n.2
      if f.1 ≠ 0 then (f.1, req, f.2.2)
      else parse_tail { req with uri_fragment := f.2.1 } 0 f.2.2
  else parse_tail req ch s

/-- The optional-query step of `request_parse`. -/
def parse_after_uri (req : request) (ch : Int) (s : List Int) :
    Int × request × List Int :=
  if ch = 63 then
    let q := get_query s
    if q.1 ≠ 0 then (q.1, req, q.2.2)
    else
      let req2 : request := { req with url_variables := q.2.1 }
      let ch2 := io_peek q.2.2
      if ch2 < 0 then (1, req2, q.2.2)
      else parse_after_query req2 ch2 q.2.2
  else parse_after_query req ch s

/-- `request_parse` of request.c: method (with BAD converted to
NOT_IMPLEMENTED), the GET/HEAD-only filter, required whitespace, URI,
optional query and fragment, SIMPLE/FULL decision and version.  Returns
the `request_parse_error_e` code, the request, and the unread rest of the
stream. -/
def request_parse (s0 : List Int) : Int × request × List Int :=
  let g := get_method s0
  let req1 : request := { request0 with method := g.2.1 }
  if g.1 = 400 then (501, req1, g.2.2)
  else if g.1 ≠ 0 then (g.1, req1, g.2.2)
  else if req1.method ≠ 2 && req1.method ≠ 3 then (501, req1, g.2.2)
  else
    let n := io_next g.2.2
    if n.1 < 0 then (1, req1, n.2)
    else if !(isspace n.1) then (400, req1, n.2)
    else
      let w := skip_ws n.2
      if w.1 < 0 then (1, req1, w.2)
      else if w.1 = 10 then (400, req1, w.2)
      else
        let u := get_uri w.2
        if u.1 ≠ 0 then (u.1, req1, u.2.2)
        else
          let req2 : request := { req1 with uri := u.2.1 }
          let ch := io_peek u.2.2
          if ch < 0 then (1, req2, u.2.2)
          else parse_after_uri req2 ch u.2.2

/-- C1: the percent escapes of the claim, evaluated on the code.  The
decode computes `second hex digit + (ASCII of first hex digit << 4)`
truncated to a byte, so "/a%20b" decodes to "/aPb" (byte 0x50), not
"/a b", and "/f%2Fg" decodes to "/ffg", not "/f/g". -/
theorem c1_percent_decoding_bug :
    (request_parse (ibytes "GET /a%20b HTTP/1.1\r\n\r\n")).1 = 0 ∧
    (request_parse (ibytes "GET /a%20b HTTP/1.1\r\n\r\n")).2.1.uri = bytes "/aPb" ∧
    (request_parse (ibytes "GET /a%20b HTTP/1.1\r\n\r\n")).2.1.uri ≠ bytes "/a b" ∧
    (request_parse (ibytes "GET /f%2Fg HTTP/1.1\r\n\r\n")).1 = 0 ∧
    (request_parse (ibytes "GET /f%2Fg HTTP/1.1\r\n\r\n")).2.1.uri = bytes "/ffg" ∧
    (request_parse (ibytes "GET /f%2Fg HTTP/1.1\r\n\r\n")).2.1.uri ≠ bytes "/f/g" := by
  decide

/-- C3: parsing "POST /x HTTP/1.1\r\n\r\n" returns
`REQUEST_PARSE_IO_ERROR` (1), not NOT_IMPLEMENTED: the `case 'P'` branch
of `get_method` sets the method to POST and then falls into an
unconditional `return REQUEST_PARSE_IO_ERROR`.  The worker drops the
connection on that code instead of sending a 501 response. -/
theorem c3_post_dropped :
    (request_parse (ibytes "POST /x HTTP/1.1\r\n\r\n")).1 = 1 ∧
    (request_parse (ibytes "POST /x HTTP/1.1\r\n\r\n")).2.1.method = 5 ∧
    handle_client_request (fun _ => none) 1 5 [] = worker_result.drop := by
  decide

def c5_input : List Int :=
  ibytes "GET /x HTTP/1.1\r\n" ++ ibytes "Host: a\r\n" ++ ibytes "\r\n"

/-- C5 counterexample: a FULL request with the well-formed header line
"Host: a\r\n" parses to OK but the stored headers list is empty -- the
pair ("Host", "a") is not recorded. -/
theorem c5_counterexample :
    (request_parse c5_input).1 = 0 ∧
    (request_parse c5_input).2.1.headers = [] ∧
    (bytes "Host", bytes "a") ∉ (request_parse c5_input).2.1.headers := by
  decide

theorem parse_ver_step_headers (req : request) (s : List Int) :
    ((parse_ver_step req s).2.1).headers = req.headers := by
  simp only [parse_ver_step]
  split_ifs <;> rfl

theorem parse_tail_headers (req : request) (ch : Int) (s : List Int) :
    ((parse_tail req ch s).2.1).headers = req.headers := by
  simp only [parse_tail]
  split_ifs <;> simp [parse_ver_step_headers]

theorem parse_after_query_headers (req : request) (ch : Int) (s : List Int) :
    ((parse_after_query req ch s).2.1).headers = req.headers := by
  simp only [parse_after_query]
  split_ifs <;> simp [parse_tail_headers]

theorem parse_after_uri_headers (req : request) (ch : Int) (s : List Int) :
    ((parse_after_uri req ch s).2.1).headers = req.headers := by
  simp only [parse_after_uri]
  split_ifs <;> simp [parse_after_query_headers]

/-- C5 amended: `request_parse` returns before the header-reading code on
every path (the unconditional `return REQUEST_PARSE_OK` at request.c line
211 makes lines 212-247 and `get_headers` unreachable), so the headers
list of the parsed request is empty for EVERY input. -/
theorem c5_headers_always_empty (s : List Int) :
    ((request_parse s).2.1).headers = [] := by
  simp only [request_parse]
  split_ifs <;> simp [parse_after_uri_headers, request0]

set_option maxRecDepth 8000 in
/-- C8: the URI length boundary evaluated on the code.  The cap test in
`get_uri` runs before the terminator test, so a URI of exactly
`URI_SIZE_MAX` (1024) bytes already fails with `REQUEST_PARSE_ERROR` (2,
surfaced as 500 by the dispatcher, not BAD); only URIs of up to 1023
bytes parse to OK. -/
theorem c8_counterexample :
    ((47 : Int) :: List.replicate 1023 (97 : Int)).length = 1024 ∧
    (request_parse (ibytes "GET " ++ ((47 : Int) :: List.replicate 1023 (97 : Int)) ++
      ibytes " HTTP/1.1\r\n\r\n")).1 = 2 := by
  decide

set_option maxRecDepth 8000 in
/-- C8 amended: a request line whose URI is exactly 1023 bytes
(`URI_SIZE_MAX - 1`) parses to OK with the URI stored verbatim; at 1024
bytes the parser fails with `REQUEST_PARSE_ERROR` (2), which is not BAD
(400) and which the dispatcher surfaces as "HTTP/1.1 500 Internal Server
Error". -/
theorem c8_uri_bound_amended :
    ((47 : Int) :: List.replicate 1022 (97 : Int)).length = 1023 ∧
    (request_parse (ibytes "GET " ++ ((47 : Int) :: List.replicate 1022 (97 : Int)) ++
      ibytes " HTTP/1.1\r\n\r\n")).1 = 0 ∧
    (request_parse (ibytes "GET " ++ ((47 : Int) :: List.replicate 1022 (97 : Int)) ++
      ibytes " HTTP/1.1\r\n\r\n")).2.1.uri = (47 : Nat) :: List.replicate 1022 (97 : Nat) ∧
    (request_parse (ibytes "GET " ++ ((47 : Int) :: List.replicate 1023 (97 : Int)) ++
      ibytes " HTTP/1.1\r\n\r\n")).1 = 2 ∧
    ¬ ((request_parse (ibytes "GET " ++ ((47 : Int) :: List.replicate 1023 (97 : Int)) ++
      ibytes " HTTP/1.1\r\n\r\n")).1 = 400) ∧
    handle_client_request (fun _ => none) 2 2 [] =
      worker_result.sent 3 "HTTP/1.1 500 Internal Server Error" 25 25 := by
  decide

end Nvhttpd
